import Mathlib

/-!
# Verification of the rtu-dashboard building search / state / preferences / detector core

A shallow embedding of the core logic of the `rtu-dashboard` repository:
the building search filter (`src/app/page.tsx`), the commercial-buildings
size view (`src/components/CommercialBuildingsList.tsx` and the inline copy
in `page.tsx`), the map selection state (`MapComponent`), the preferences
store (`HamburgerMenu.tsx`, `src/app/settings/page.tsx`) and the RTU
detection request adapter (`src/components/RTUDetector.tsx`).

JavaScript strings are modelled as `List Char`; `String.prototype.includes`
is contiguous-substring membership (`List.IsInfix`), `toLowerCase` maps
`Char.toLower` over the characters, and `trim` drops whitespace from both
ends.  `localStorage` cells are modelled as `Option` values.  All state
updates are explicit state-passing, following the single-threaded
event-driven model of the application (each handler runs to completion on
the rendered state before the next event is processed).
-/

namespace RTUDashboard

/-- JS `s.toLowerCase()` on a string modelled as a character list. -/
def jsToLower (s : List Char) : List Char := s.map Char.toLower

/-- JS `hay.includes(pat)`: `pat` occurs in `hay` as a contiguous substring. -/
def jsIncludes (hay pat : List Char) : Bool := decide (pat <:+: hay)

/-- JS `s.trim()`: drop whitespace from both ends. -/
def jsTrim (s : List Char) : List Char :=
  ((s.dropWhile Char.isWhitespace).reverse.dropWhile Char.isWhitespace).reverse

/-- A building record, as in the sample data of `src/app/page.tsx`:
`id`, `name`, `address`, `rtuCount`, `coordinates`, `type`, `squareFeet`. -/
structure Building where
  id : String
  name : List Char
  address : List Char
  rtuCount : Nat
  coordinates : ℚ × ℚ
  type : String
  squareFeet : Nat
deriving DecidableEq, Repr

/-- The 10-building sample repository `sampleBuildings` of `src/app/page.tsx`. -/
def sampleBuildings : List Building :=
  [ ⟨"1", "Downtown Office Complex".data, "123 Main St, Pittsburgh, PA 15213".data,
      12, (40.4406, -79.9959), "commercial", 125000⟩,
    ⟨"2", "Riverside Apartments".data, "456 River Ave, Pittsburgh, PA 15222".data,
      8, (40.4495, -80.0090), "residential", 85000⟩,
    ⟨"3", "Tech Innovation Center".data, "789 Innovation Dr, Pittsburgh, PA 15203".data,
      15, (40.4290, -79.9840), "commercial", 180000⟩,
    ⟨"4", "Shadyside Medical Center".data, "321 Health Ave, Pittsburgh, PA 15232".data,
      20, (40.4570, -79.9250), "commercial", 210000⟩,
    ⟨"5", "Oakland University Buildings".data, "567 Academic Way, Pittsburgh, PA 15213".data,
      18, (40.4440, -79.9530), "educational", 150000⟩,
    ⟨"6", "U.S. Steel Tower".data, "600 Grant St, Pittsburgh, PA 15219".data,
      25, (40.4413, -79.9948), "commercial", 2300000⟩,
    ⟨"7", "One PPG Place".data, "1 PPG Pl, Pittsburgh, PA 15222".data,
      22, (40.4414, -80.0036), "commercial", 1500000⟩,
    ⟨"8", "BNY Mellon Center".data, "500 Grant St, Pittsburgh, PA 15219".data,
      18, (40.4407, -79.9951), "commercial", 1200000⟩,
    ⟨"9", "Fifth Avenue Place".data, "120 Fifth Ave, Pittsburgh, PA 15222".data,
      16, (40.4422, -79.9977), "commercial", 780000⟩,
    ⟨"10", "Koppers Building".data, "436 Seventh Ave, Pittsburgh, PA 15219".data,
      14, (40.4418, -79.9962), "commercial", 350000⟩ ]

/-- The first sample building (id `'1'`, Downtown Office Complex), used as a
concrete input below. -/
def downtownOfficeComplex : Building :=
  ⟨"1", "Downtown Office Complex".data, "123 Main St, Pittsburgh, PA 15213".data,
    12, (40.4406, -79.9959), "commercial", 125000⟩

/-- Function `handleSearch` of `src/app/page.tsx`: on an empty (after trim) query the
filtered set is reset to all buildings; otherwise it keeps the buildings
whose lowercased name or address contains the lowercased query. -/
def handleSearch (search : List Char) (buildings : List Building) : List Building :=
  if jsTrim search = [] then buildings
  else buildings.filter fun building =>
    jsIncludes (jsToLower building.name) (jsToLower search) ||
    jsIncludes (jsToLower building.address) (jsToLower search)

/-- The descending-by-floor-area comparison used by the commercial list:
the JS comparator `(a, b) => b.squareFeet - a.squareFeet` orders `a` before
`b` exactly when `b.squareFeet ≤ a.squareFeet`. -/
def bySizeDesc (a b : Building) : Prop := b.squareFeet ≤ a.squareFeet

instance : DecidableRel bySizeDesc := fun _ _ => Nat.decLe _ _

instance : IsTotal Building bySizeDesc := ⟨fun a b => Nat.le_total b.squareFeet a.squareFeet⟩

instance : IsTrans Building bySizeDesc := ⟨fun _ _ _ h h' => Nat.le_trans h' h⟩

/-- Function `largeCommercialBuildings` of `CommercialBuildingsList.tsx` (and the
inline commercial-list view of `page.tsx`): keep commercial buildings at or
above the minimum size, then sort by size, largest first.  JS `Array.sort`
is a stable sort, modelled by `List.insertionSort` with `bySizeDesc`. -/
def largeCommercialBuildings (buildings : List Building) (minBuildingSize : Nat) :
    List Building :=
  (buildings.filter fun building =>
    building.type == "commercial" && minBuildingSize ≤ building.squareFeet).insertionSort
    bySizeDesc

/-! ## Map selection state (`MapComponent`, both the Leaflet and the Google Maps variant)

The component keeps `activeBuilding : Building | null` and the `buildings`
prop.  A marker click stores the clicked building object, the close button
stores `null`, a prop update replaces the building list.  There is no
effect watching `buildings`, so a prop update leaves `activeBuilding`
untouched. -/

structure MapState where
  buildings : List Building
  activeBuilding : Option Building
  localSatelliteView : Bool
deriving Repr

inductive MapEvent where
  /-- marker `onClick`: `setActiveBuilding(building)` -/
  | markerClick (building : Building)
  /-- info-card close button: `setActiveBuilding(null)` -/
  | closeClick
  /-- the parent re-renders the component with a new `buildings` prop
  (e.g. a new search replaced `filteredBuildings`) -/
  | setBuildings (buildings : List Building)
  /-- toggle via `handleSatelliteToggle` -/
  | satelliteToggle (value : Bool)

def mapStep (st : MapState) : MapEvent → MapState
  | .markerClick building => { st with activeBuilding := some building }
  | .closeClick => { st with activeBuilding := none }
  | .setBuildings buildings => { st with buildings := buildings }
  | .satelliteToggle value => { st with localSatelliteView := value }

/-! ## Preferences store (`HamburgerMenu.tsx` and `src/app/settings/page.tsx`) -/

/-- Structure `UserSettings` of `HamburgerMenu.tsx` / `settings/page.tsx`. -/
structure UserSettings where
  darkMode : Bool
  mapType : String
  notifications : Bool
  dataRefreshInterval : Nat
deriving DecidableEq, Repr

/-- The `useState` initial value in both components. -/
def defaultSettings : UserSettings :=
  { darkMode := false, mapType := "standard", notifications := true,
    dataRefreshInterval := 15 }

/-- A single-field update, one constructor per `keyof UserSettings`. -/
inductive SettingChange where
  | darkMode (value : Bool)
  | mapType (value : String)
  | notifications (value : Bool)
  | dataRefreshInterval (value : Nat)

/-- The JS spread `{ ...prev, [setting]: value }`: the changed field merged
over the previous full object. -/
def applyChange (prev : UserSettings) : SettingChange → UserSettings
  | .darkMode value => { prev with darkMode := value }
  | .mapType value => { prev with mapType := value }
  | .notifications value => { prev with notifications := value }
  | .dataRefreshInterval value => { prev with dataRefreshInterval := value }

/-- The startup load effect shared by both components: read the stored
value, keep the defaults when nothing is stored, `try` to parse and fall
back to the defaults (the initial state) when parsing throws.  `parse`
models `JSON.parse` plus the `UserSettings` cast; a parse failure is a
`none`, never an exception escaping to the caller. -/
def loadSettings (parse : String → Option UserSettings) (stored : Option String) :
    UserSettings :=
  match stored with
  | none => defaultSettings
  | some raw =>
    match parse raw with
    | some parsed => parsed
    | none => defaultSettings

namespace HamburgerMenu

/-- Component state: the in-memory settings and the `localStorage`
`userSettings` cell (stored as the serialized full object, which round-trips
exactly, so modelled as the object itself). -/
structure MenuState where
  settings : UserSettings
  storage : Option UserSettings
deriving DecidableEq, Repr

/-- Function `handleSettingChange` of `HamburgerMenu.tsx`: `setSettings(prev =>
({...prev, [setting]: value}))` and, in the same handler,
`localStorage.setItem('userSettings', JSON.stringify({...settings,
[setting]: value}))`.  In the single-threaded event model the rendered
`settings` the handler closes over equals the latest state `prev`. -/
def handleSettingChange (st : MenuState) (change : SettingChange) : MenuState :=
  { settings := applyChange st.settings change,
    storage := some (applyChange st.settings change) }

end HamburgerMenu

namespace SettingsPage

/-- Component state of `src/app/settings/page.tsx`: settings, the unsaved
marker `isSaved`, and the `localStorage` cell. -/
structure PageState where
  settings : UserSettings
  isSaved : Bool
  storage : Option UserSettings
deriving DecidableEq, Repr

/-- Function `handleSettingChange` of `settings/page.tsx`: updates the in-memory
state and marks it unsaved; it does not touch `localStorage`. -/
def handleSettingChange (st : PageState) (change : SettingChange) : PageState :=
  { st with settings := applyChange st.settings change, isSaved := false }

/-- Function `saveSettings` of `settings/page.tsx`, run by the explicit
"Save Changes" button: writes the current settings and shows the toast. -/
def saveSettings (st : PageState) : PageState :=
  { st with storage := some st.settings, isSaved := true }

end SettingsPage

/-! ## Detection request adapter (`src/components/RTUDetector.tsx`) -/

/-- A JSON value, the result of `response.json()` before the unchecked
`DetectionResponse` cast. -/
inductive Json where
  | null
  | bool (b : Bool)
  | num (n : Int)
  | str (s : String)
  | arr (elems : List Json)
  | obj (fields : List (String × Json))

/-- JS property access `j.k` on a parsed JSON value: the field of an
object, `undefined` (here `none`) otherwise. -/
def Json.getField : Json → String → Option Json
  | .obj fields, key => fields.lookup key
  | _, _ => none

/-- JS truthiness of a JSON value (`if (result.processed_image)`). -/
def Json.truthy : Json → Bool
  | .null => false
  | .bool b => b
  | .num n => n != 0
  | .str s => s != ""
  | .arr _ => true
  | .obj _ => true

/-- Modelled from the spec: the response-shape validation the spec requires
of the detect adapter, which is absent from `RTUDetector.tsx` — the body
must contain an integer `count` and a (possibly empty) `detections`
sequence. -/
def specValidShape (j : Json) : Bool :=
  match j.getField "count", j.getField "detections" with
  | some (.num _), some (.arr _) => true
  | _, _ => false

/-- An uploaded file: its MIME type and the data URL `FileReader` produces
for it. -/
structure ImageFile where
  mimeType : List Char
  dataUrl : String

/-- The `useState` cells of the `RTUDetector` component. -/
structure DetectorState where
  selectedImage : Option String
  processedImage : Option Json
  isLoading : Bool
  detectionResult : Option Json
  error : Option String
  isDragging : Bool

/-- The initial detector state: every cell starts at `null` / `false`. -/
def detectorInit : DetectorState :=
  { selectedImage := none, processedImage := none, isLoading := false,
    detectionResult := none, error := none, isDragging := false }

/-- Function `handleFileChange` of `RTUDetector.tsx`: no file is a no-op; a
file whose MIME type does not start with `image/` only sets the error
message; otherwise previous results are reset and the reader stores the
data URL as the selected image. -/
def handleFileChange (st : DetectorState) (file : Option ImageFile) : DetectorState :=
  match file with
  | none => st
  | some f =>
    if !List.isPrefixOf "image/".data f.mimeType then
      { st with error := some "Please select an image file" }
    else
      { st with processedImage := none, detectionResult := none, error := none,
                selectedImage := some f.dataUrl }

/-- Function `handleDrop` of `RTUDetector.tsx`: identical to
`handleFileChange` except that it first clears the `isDragging` flag
(before the missing-file and non-image checks). -/
def handleDrop (st : DetectorState) (file : Option ImageFile) : DetectorState :=
  handleFileChange { st with isDragging := false } file

/-- The outcome of the `fetch` round trip as seen by `handleDetect`. -/
inductive DetectOutcome where
  /-- the `fetch` promise rejected: endpoint unreachable -/
  | networkFailure (message : String)
  /-- an HTTP response arrived; `body` is the result of `response.json()`,
  an `Except` because parsing can reject -/
  | response (ok : Bool) (status : Nat) (statusText : String) (body : Except String Json)

/-- The synchronous head of `handleDetect`: with no selected image it sets
the validation error and returns without any request (the `Bool` reports
whether a request was issued); otherwise it enters the loading state,
clears the error and issues the single request. -/
def handleDetectStart (st : DetectorState) : DetectorState × Bool :=
  match st.selectedImage with
  | none => ({ st with error := some "Please select an image first" }, false)
  | some _ => ({ st with isLoading := true, error := none }, true)

/-- The continuation of `handleDetect` once the request settles: a rejected
fetch, a non-`ok` status and a JSON parse failure all land in the single
`catch` and set the error message; a parsed body is cast to
`DetectionResponse` unchecked and stored as the result, with
`processed_image` copied over when truthy.  `finally` clears `isLoading`. -/
def handleDetectComplete (st : DetectorState) (outcome : DetectOutcome) : DetectorState :=
  match outcome with
  | .networkFailure message =>
    { st with error := some message, isLoading := false }
  | .response ok status statusText body =>
    if !ok then
      { st with error := some ("Error: " ++ toString status ++ " " ++ statusText),
                isLoading := false }
    else
      match body with
      | .error message => { st with error := some message, isLoading := false }
      | .ok result =>
        let st' := { st with detectionResult := some result }
        let st'' :=
          match result.getField "processed_image" with
          | some v => if v.truthy then { st' with processedImage := some v } else st'
          | none => st'
        { st'' with isLoading := false }

/-- A click on the detect button: the button carries
`disabled={isLoading || !selectedImage}`, so the click only reaches
`handleDetect` when no request is pending and an image is selected. -/
def clickDetect (st : DetectorState) : DetectorState × Bool :=
  if st.isLoading || st.selectedImage.isNone then (st, false)
  else handleDetectStart st

/-! ## Auxiliary lemmas on characters and trimming -/

theorem char_eq_iff_toNat {c d : Char} : c = d ↔ c.toNat = d.toNat :=
  ⟨fun h => h ▸ rfl, fun h => Char.ext (UInt32.ext h)⟩

theorem toNat_ofNat_valid {n : Nat} (h : n.isValidChar) : (Char.ofNat n).toNat = n := by
  simp [Char.ofNat, h, Char.ofNatAux, Char.toNat, UInt32.toNat]

theorem isWhitespace_iff_toNat (c : Char) : c.isWhitespace = true ↔
    (c.toNat = 32 ∨ c.toNat = 9 ∨ c.toNat = 13 ∨ c.toNat = 10) := by
  have h1 : (' ' : Char).toNat = 32 := rfl
  have h2 : ('\t' : Char).toNat = 9 := rfl
  have h3 : ('\r' : Char).toNat = 13 := rfl
  have h4 : ('\n' : Char).toNat = 10 := rfl
  simp only [Char.isWhitespace, Bool.or_eq_true, decide_eq_true_eq, char_eq_iff_toNat,
    h1, h2, h3, h4]
  tauto

/-- Lowercasing never turns whitespace into non-whitespace or vice versa. -/
theorem isWhitespace_toLower (c : Char) :
    (Char.toLower c).isWhitespace = c.isWhitespace := by
  by_cases h : c.toNat ≥ 65 ∧ c.toNat ≤ 90
  · have hv : (Char.ofNat (c.toNat + 32)).toNat = c.toNat + 32 := by
      apply toNat_ofNat_valid
      left
      show c.toNat + 32 < 55296
      have := h.2
      omega
    have hlow : Char.toLower c = Char.ofNat (c.toNat + 32) := by
      simp [Char.toLower, h]
    rw [hlow]
    apply Bool.eq_iff_iff.mpr
    rw [isWhitespace_iff_toNat, isWhitespace_iff_toNat, hv]
    omega
  · have hlow : Char.toLower c = c := by
      simp [Char.toLower, h]
    rw [hlow]

theorem jsTrim_eq_nil_iff (s : List Char) :
    jsTrim s = [] ↔ ∀ c ∈ s, c.isWhitespace := by
  unfold jsTrim
  simp only [List.reverse_eq_nil_iff, List.dropWhile_eq_nil_iff, List.mem_reverse]
  constructor
  · intro h c hc
    rcases List.mem_append.mp
        ((List.takeWhile_append_dropWhile Char.isWhitespace s) ▸ hc) with h1 | h2
    · exact List.mem_takeWhile_imp h1
    · exact h c h2
  · intro h c hc
    exact h c ((List.dropWhile_sublist Char.isWhitespace).subset hc)

theorem ws_map_toLower (s : List Char) :
    (∀ c ∈ s, c.isWhitespace) ↔ (∀ c ∈ jsToLower s, c.isWhitespace) := by
  unfold jsToLower
  simp only [List.mem_map, forall_exists_index, and_imp, forall_apply_eq_imp_iff₂]
  constructor
  · intro h a ha
    rw [isWhitespace_toLower]
    exact h a ha
  · intro h a ha
    have := h a ha
    rwa [isWhitespace_toLower] at this

/-! ## Auxiliary lemmas on the stable sort -/

/-- Inserting into a list preserves the sublist of elements of any fixed
floor-area key: elements skipped by `orderedInsert` have a strictly larger
key, so the inserted element lands before every equal-key element that was
inserted earlier (stability of the sort). -/
theorem filter_key_orderedInsert (k : Nat) (x : Building) (s : List Building) :
    (s.orderedInsert bySizeDesc x).filter (fun b => b.squareFeet == k) =
      if x.squareFeet == k then x :: s.filter (fun b => b.squareFeet == k)
      else s.filter (fun b => b.squareFeet == k) := by
  induction s with
  | nil =>
    by_cases hx : (x.squareFeet == k) = true
    · simp [List.filter, hx]
    · simp [List.filter, hx]
  | cons y ys ih =>
    simp only [List.orderedInsert]
    by_cases hr : bySizeDesc x y
    · rw [if_pos hr]
      by_cases hx : (x.squareFeet == k) = true
      · simp [List.filter_cons, hx]
      · simp [List.filter_cons, hx]
    · rw [if_neg hr]
      by_cases hy : (y.squareFeet == k) = true
      · by_cases hx : (x.squareFeet == k) = true
        · exfalso
          apply hr
          show y.squareFeet ≤ x.squareFeet
          have hx' : x.squareFeet = k := by simpa using hx
          have hy' : y.squareFeet = k := by simpa using hy
          omega
        · simp [List.filter_cons, hy, hx, ih]
      · simp [List.filter_cons, hy, ih]

/-- The stable sort keeps every equal-floor-area group in its original
relative order. -/
theorem filter_key_insertionSort (k : Nat) (l : List Building) :
    ((l.insertionSort bySizeDesc).filter (fun b => b.squareFeet == k)) =
      l.filter (fun b => b.squareFeet == k) := by
  induction l with
  | nil => rfl
  | cons x xs ih =>
    simp only [List.insertionSort]
    rw [filter_key_orderedInsert]
    by_cases hx : (x.squareFeet == k) = true
    · simp [List.filter_cons, hx, ih]
    · simp [List.filter_cons, hx, ih]

/-! ## Claim theorems -/

/-- C1.  The claim says: whenever the filtered building set is replaced and
the active building is not a member of the new set, the active-building
state is cleared to `null` before the next render.  The code does not do
this: `MapComponent` has no effect watching the `buildings` prop, so after
a marker click on the Downtown Office Complex followed by a search for
"Riverside" (whose result excludes it), the component still holds the
stale building object and keeps rendering its info card. -/
theorem mapComponent_keeps_stale_active_building :
    let st0 : MapState :=
      { buildings := sampleBuildings, activeBuilding := none, localSatelliteView := false }
    let st1 := mapStep st0 (.markerClick downtownOfficeComplex)
    let st2 := mapStep st1 (.setBuildings (handleSearch "Riverside".data sampleBuildings))
    st2.activeBuilding = some downtownOfficeComplex ∧
      downtownOfficeComplex ∉ st2.buildings := by
  constructor
  · rfl
  · decide

/-- C2.  The claim says a successful detect response is shape-validated
(integer `count`, `detections` sequence) and malformed bodies surface an
`InvalidResponseError` distinct from `NetworkError`.  The code performs no
validation: an HTTP 200 response whose JSON body is the empty object — which
fails the spec's shape validation — is stored as the detection result with
no error of any kind. -/
theorem handleDetect_coerces_malformed_response :
    let pending : DetectorState :=
      (handleDetectStart
        { detectorInit with selectedImage := some "data:image/png;base64,AAAA" }).1
    let final := handleDetectComplete pending (.response true 200 "OK" (.ok (Json.obj [])))
    specValidShape (Json.obj []) = false ∧
    final.detectionResult = some (Json.obj []) ∧
    final.error = none ∧ final.isLoading = false :=
  ⟨rfl, rfl, rfl, rfl⟩

/-- C3 counterexample.  In `settings/page.tsx`, changing a preferences field
does not trigger any save: starting from defaults with empty storage,
toggling dark mode updates the in-memory settings but leaves storage empty,
so the persisted value does not equal the new full object. -/
theorem settingsPage_field_change_not_persisted :
    let st0 : SettingsPage.PageState :=
      { settings := defaultSettings, isSaved := false, storage := none }
    let st1 := SettingsPage.handleSettingChange st0 (.darkMode true)
    st1.settings = applyChange st0.settings (.darkMode true) ∧
    st1.storage = none ∧ st1.storage ≠ some st1.settings := by
  refine ⟨rfl, rfl, ?_⟩
  decide

/-- C3 amended.  In `HamburgerMenu.tsx` every field change rebuilds the full
preferences object by merging the changed field over the previous state and
immediately persists that same full object.  In `settings/page.tsx` a field
change only merges into in-memory state and marks it unsaved; persistence
happens only through the explicit Save action, which writes the current
full object. -/
theorem preferences_write_back_split (st : HamburgerMenu.MenuState)
    (stp : SettingsPage.PageState) (change : SettingChange) :
    (HamburgerMenu.handleSettingChange st change).settings = applyChange st.settings change ∧
    (HamburgerMenu.handleSettingChange st change).storage =
      some (applyChange st.settings change) ∧
    (SettingsPage.handleSettingChange stp change).settings = applyChange stp.settings change ∧
    (SettingsPage.handleSettingChange stp change).storage = stp.storage ∧
    (SettingsPage.handleSettingChange stp change).isSaved = false ∧
    (SettingsPage.saveSettings stp).storage = some stp.settings :=
  ⟨rfl, rfl, rfl, rfl, rfl, rfl⟩

/-- C4.  For a query whose trimmed value is non-empty, `handleSearch` keeps
exactly the buildings whose name or address contains the query as a
case-insensitive contiguous substring; and any two queries with the same
lowercasing (differing only in letter case) produce identical results. -/
theorem handleSearch_substring_case_insensitive (R : List Building) (q : List Char) :
    (jsTrim q ≠ [] → ∀ b : Building, b ∈ handleSearch q R ↔
      b ∈ R ∧ (jsToLower q <:+: jsToLower b.name ∨ jsToLower q <:+: jsToLower b.address)) ∧
    (∀ q' : List Char, jsToLower q = jsToLower q' →
      handleSearch q R = handleSearch q' R) := by
  constructor
  · intro hq b
    unfold handleSearch
    rw [if_neg hq]
    simp [List.mem_filter, jsIncludes]
  · intro q' h
    have htrim : jsTrim q = [] ↔ jsTrim q' = [] := by
      rw [jsTrim_eq_nil_iff, jsTrim_eq_nil_iff, ws_map_toLower q, ws_map_toLower q', h]
    unfold handleSearch
    by_cases h1 : jsTrim q = []
    · rw [if_pos h1, if_pos (htrim.mp h1)]
    · rw [if_neg h1, if_neg (fun hh => h1 (htrim.mpr hh))]
      simp only [h]

/-- C4 witness: on the sample repository, searching `"OFFICE"` and
`"office"` yield the same result, and the Downtown Office Complex is in
it because its name contains the query case-insensitively. -/
theorem handleSearch_substring_case_insensitive_witness :
    (downtownOfficeComplex ∈ handleSearch "OFFICE".data sampleBuildings ↔
      downtownOfficeComplex ∈ sampleBuildings ∧
        (jsToLower "OFFICE".data <:+: jsToLower downtownOfficeComplex.name ∨
         jsToLower "OFFICE".data <:+: jsToLower downtownOfficeComplex.address)) ∧
    handleSearch "OFFICE".data sampleBuildings =
      handleSearch "office".data sampleBuildings :=
  ⟨(handleSearch_substring_case_insensitive sampleBuildings "OFFICE".data).1
      (by decide) downtownOfficeComplex,
   (handleSearch_substring_case_insensitive sampleBuildings "OFFICE".data).2
      "office".data (by decide)⟩

/-- C5.  The commercial-building-size view contains exactly the commercial
buildings at or above the minimum floor area; it is sorted descending by
floor area; equal-floor-area groups keep their original repository order
(stable sort); and on the 10-building sample repository with threshold
500000 the result is buildings 6, 7, 8, 9 led by the U.S. Steel Tower. -/
theorem largeCommercialBuildings_spec (R : List Building) (minSize : Nat) :
    (∀ b : Building, b ∈ largeCommercialBuildings R minSize ↔
        b ∈ R ∧ b.type = "commercial" ∧ minSize ≤ b.squareFeet) ∧
    (largeCommercialBuildings R minSize).Sorted bySizeDesc ∧
    (∀ k : Nat, (largeCommercialBuildings R minSize).filter (fun b => b.squareFeet == k) =
      (R.filter fun b => b.type == "commercial" && minSize ≤ b.squareFeet).filter
        (fun b => b.squareFeet == k)) ∧
    (largeCommercialBuildings sampleBuildings 500000).map (fun b => b.id) =
      ["6", "7", "8", "9"] ∧
    (largeCommercialBuildings sampleBuildings 500000).head?.map (fun b => b.name) =
      some "U.S. Steel Tower".data := by
  refine ⟨?_, ?_, ?_, ?_, ?_⟩
  · intro b
    unfold largeCommercialBuildings
    rw [List.mem_insertionSort]
    simp [List.mem_filter]
  · exact List.sorted_insertionSort bySizeDesc _
  · intro k
    exact filter_key_insertionSort k _
  · decide
  · decide

/-- C6.  A query that is empty or consists only of whitespace makes
`handleSearch` the identity: the full repository is returned in its
original order. -/
theorem handleSearch_blank_query_identity (R : List Building) (q : List Char)
    (h : jsTrim q = []) : handleSearch q R = R := by
  unfold handleSearch
  rw [if_pos h]

/-- C6 witness: a whitespace-only query leaves the sample repository
unchanged. -/
theorem handleSearch_blank_query_identity_witness :
    handleSearch "   ".data sampleBuildings = sampleBuildings :=
  handleSearch_blank_query_identity sampleBuildings "   ".data (by decide)

/-- C7.  Preferences load yields the defined defaults whenever nothing is
stored or the stored value fails to parse; the load function is total, so a
corrupt stored value never raises an error but silently falls back. -/
theorem loadSettings_defaults_fallback
    (parse : String → Option UserSettings) (stored : Option String) :
    (stored = none → loadSettings parse stored = defaultSettings) ∧
    (∀ raw, stored = some raw → parse raw = none →
      loadSettings parse stored = defaultSettings) := by
  constructor
  · intro h
    subst h
    rfl
  · intro raw h hp
    subst h
    simp [loadSettings, hp]

/-- C7 witness: with no stored value, and with a stored value the parser
rejects, loading yields the defaults. -/
theorem loadSettings_defaults_fallback_witness :
    loadSettings (fun _ => none) none = defaultSettings ∧
    loadSettings (fun _ => none) (some "corrupt") = defaultSettings :=
  ⟨(loadSettings_defaults_fallback (fun _ => none) none).1 rfl,
   (loadSettings_defaults_fallback (fun _ => none) (some "corrupt")).2 "corrupt" rfl rfl⟩

/-- C8.  Input validation happens synchronously before any network call:
invoking detect with no selected image sets the validation error and issues
no request, and a file whose MIME type is not `image/...` is rejected at
selection time with a validation error. -/
theorem detect_validates_input_before_request (st : DetectorState) :
    (st.selectedImage = none →
      handleDetectStart st = ({ st with error := some "Please select an image first" }, false)) ∧
    (∀ f : ImageFile, List.isPrefixOf "image/".data f.mimeType = false →
      handleFileChange st (some f) = { st with error := some "Please select an image file" }) := by
  constructor
  · intro h
    unfold handleDetectStart
    rw [h]
  · intro f hf
    simp [handleFileChange, hf]

/-- C8 witness: from the initial state, detect with no image errors without
a request, and selecting a `text/plain` file errors at selection time. -/
theorem detect_validates_input_before_request_witness :
    handleDetectStart detectorInit =
      ({ detectorInit with error := some "Please select an image first" }, false) ∧
    handleFileChange detectorInit (some ⟨"text/plain".data, "url"⟩) =
      { detectorInit with error := some "Please select an image file" } :=
  ⟨(detect_validates_input_before_request detectorInit).1 rfl,
   (detect_validates_input_before_request detectorInit).2
      ⟨"text/plain".data, "url"⟩ (by decide)⟩

/-- C9.  At most one detection request is outstanding: a detect trigger
while a request is pending is ignored (the button is disabled, so the state
is unchanged and no request starts), and of two back-to-back detect
triggers at most one starts a request — the second is a no-op. -/
theorem detect_single_outstanding_request (st : DetectorState) :
    (st.isLoading = true → clickDetect st = (st, false)) ∧
    ((clickDetect st).2 = true →
      clickDetect (clickDetect st).1 = ((clickDetect st).1, false)) := by
  constructor
  · intro h
    simp [clickDetect, h]
  · intro h
    by_cases hl : st.isLoading
    · simp [clickDetect, hl] at h
    · cases hsel : st.selectedImage with
      | none => simp [clickDetect, hl, hsel] at h
      | some img =>
        simp [clickDetect, hl, hsel, handleDetectStart]

/-- C9 witness: a click while loading is ignored, and after a click that
starts a request from a ready state, an immediate second click is a
no-op. -/
theorem detect_single_outstanding_request_witness :
    clickDetect { detectorInit with isLoading := true } =
      ({ detectorInit with isLoading := true }, false) ∧
    clickDetect (clickDetect { detectorInit with
        selectedImage := some "data:image/png;base64,AAAA" }).1 =
      ((clickDetect { detectorInit with
        selectedImage := some "data:image/png;base64,AAAA" }).1, false) :=
  ⟨(detect_single_outstanding_request { detectorInit with isLoading := true }).1 rfl,
   (detect_single_outstanding_request
      { detectorInit with selectedImage := some "data:image/png;base64,AAAA" }).2 rfl⟩

/-- C10 counterexample.  Dropping a non-image file does not leave the rest
of the detector state exactly as it was: `handleDrop` clears the
`isDragging` flag before the file check, so from a state where a drag was
in progress the rejection changes `isDragging` from `true` to `false` in
addition to setting the error message. -/
theorem handleDrop_nonimage_resets_isDragging :
    let st0 : DetectorState := { detectorInit with isDragging := true }
    let st1 := handleDrop st0 (some ⟨"text/plain".data, "url"⟩)
    st1.error = some "Please select an image file" ∧
    st1.isDragging = false ∧ st0.isDragging = true :=
  ⟨rfl, rfl, rfl⟩

/-- C10 amended.  Rejecting a non-image file sets only the error message
through the file picker, and only the error message plus the cleared
`isDragging` flag through drag-and-drop; in both paths the selected image,
the processed image and the detection result are left exactly as they
were. -/
theorem nonimage_rejection_frame (st : DetectorState) (f : ImageFile)
    (h : List.isPrefixOf "image/".data f.mimeType = false) :
    handleFileChange st (some f) = { st with error := some "Please select an image file" } ∧
    handleDrop st (some f) =
      { st with isDragging := false, error := some "Please select an image file" } := by
  constructor
  · simp [handleFileChange, h]
  · simp [handleDrop, handleFileChange, h]

/-- C10 amended witness: rejecting an `application/pdf` file from the
initial state. -/
theorem nonimage_rejection_frame_witness :
    handleFileChange detectorInit (some ⟨"application/pdf".data, "url"⟩) =
      { detectorInit with error := some "Please select an image file" } ∧
    handleDrop detectorInit (some ⟨"application/pdf".data, "url"⟩) =
      { detectorInit with isDragging := false,
                          error := some "Please select an image file" } :=
  nonimage_rejection_frame detectorInit ⟨"application/pdf".data, "url"⟩ (by decide)

end RTUDashboard
